import Mathlib

/-!
Shallow embedding of the elevator telemetry service in
`src/elevators/main.py`, together with theorems checking the claims of
the natural-language specification against it.

Modelling conventions:
- Python `datetime` values are embedded as integers on a single timeline
  (only their total order and comparisons matter to the code).
- The SQLite database is a `Store` value: the two tables as lists in
  insertion order, plus the autoincrement counters.
- A SQLAlchemy query `order_by` is embedded as a stable sort
  (`List.insertionSort`); `.first()` is `List.head?`.
- A POST endpoint is a function from the validated request body and the
  store to the created row and the updated store; pydantic validation of
  the raw JSON body (whose fields may be absent) is a separate `Except`
  returning step, since pydantic rejects a missing required field before
  the handler runs.
-/

namespace Elevators

/-- ORM model `State` (table `states`, main.py lines 18-33): a snapshot of
the elevator's status.  Field names follow the source, including the
misspelling `mooving`. -/
structure State where
  id : Nat
  current_floor : Int
  state_time : Int
  vacant : Bool
  mooving : Bool
  deriving DecidableEq

/-- ORM model `Demand` (table `demands`, main.py lines 35-46): a call for
the elevator from a floor. -/
structure Demand where
  id : Nat
  demand_floor : Int
  demand_time : Int
  deriving DecidableEq

/-- The database content: the two tables in insertion order plus the
autoincrement counters used for the next `id`. -/
structure Store where
  states : List State
  demands : List Demand
  next_state_id : Nat
  next_demand_id : Nat
  deriving DecidableEq

/-- Pydantic schema `StateBase` (main.py lines 52-56): all four fields are
declared with plain types and no default, hence required. -/
structure StateBase where
  current_floor : Int
  state_time : Int
  vacant : Bool
  mooving : Bool
  deriving DecidableEq

/-- Pydantic schema `DemandBase` (main.py lines 58-60): both fields
required. -/
structure DemandBase where
  demand_floor : Int
  demand_time : Int
  deriving DecidableEq

/-- A raw JSON body for POST /state: any key may be absent (`none`). -/
structure StateReqBody where
  current_floor : Option Int
  state_time : Option Int
  vacant : Option Bool
  mooving : Option Bool
  deriving DecidableEq

/-- A raw JSON body for POST /demand: any key may be absent (`none`). -/
structure DemandReqBody where
  demand_floor : Option Int
  demand_time : Option Int
  deriving DecidableEq

/-- Pydantic validation of a POST /state body against `StateBase`: every
field of the schema is required (none has a default or an `Optional`
type), so a body missing any of them is rejected with a 422 validation
error before the handler runs. -/
def StateBase.validate (r : StateReqBody) : Except String StateBase :=
  match r.current_floor, r.state_time, r.vacant, r.mooving with
  | some f, some t, some v, some m => Except.ok ⟨f, t, v, m⟩
  | _, _, _, _ => Except.error "422 Unprocessable Entity: field required"

/-- Pydantic validation of a POST /demand body against `DemandBase`. -/
def DemandBase.validate (r : DemandReqBody) : Except String DemandBase :=
  match r.demand_floor, r.demand_time with
  | some f, some t => Except.ok ⟨f, t⟩
  | _, _ => Except.error "422 Unprocessable Entity: field required"

/-- One record of the list returned by GET /dataset (the dict built at
main.py lines 172-177). -/
structure AssocRecord where
  resting_floor : Int
  resting_time : Int
  demand_floor : Int
  demand_time : Int
  deriving DecidableEq

/-- Handler `create_state` (POST /state, main.py lines 88-108): builds a
`State` row from the validated body, adds and commits it.  The `id` comes
from the autoincrement counter; `state_time` is always the value supplied
by the validated body. -/
def create_state (b : StateBase) (db : Store) : State × Store :=
  let new_state : State :=
    ⟨db.next_state_id, b.current_floor, b.state_time, b.vacant, b.mooving⟩
  (new_state,
    ⟨db.states ++ [new_state], db.demands, db.next_state_id + 1, db.next_demand_id⟩)

/-- Handler `create_demand` (POST /demand, main.py lines 126-146): builds a
`Demand` row from the validated body, adds and commits it.  Despite its
docstring, the handler touches only the `demands` table. -/
def create_demand (b : DemandBase) (db : Store) : Demand × Store :=
  let new_demand : Demand :=
    ⟨db.next_demand_id, b.demand_floor, b.demand_time⟩
  (new_demand,
    ⟨db.states, db.demands ++ [new_demand], db.next_state_id, db.next_demand_id + 1⟩)

/-- Full POST /state request path: pydantic validation, then the handler. -/
def postState (r : StateReqBody) (db : Store) : Except String (State × Store) :=
  (StateBase.validate r).map (fun b => create_state b db)

/-- Full POST /demand request path: pydantic validation, then the handler. -/
def postDemand (r : DemandReqBody) (db : Store) : Except String (Demand × Store) :=
  (DemandBase.validate r).map (fun b => create_demand b db)

/-- Handler `read_states` (GET /state, main.py lines 75-86). -/
def read_states (db : Store) : List State × Store :=
  (db.states, db)

/-- Handler `read_demands` (GET /demand, main.py lines 111-121). -/
def read_demands (db : Store) : List Demand × Store :=
  (db.demands, db)

/-- Ascending order on demands by `demand_time`, the key of
`order_by(Demand.demand_time)`. -/
def demandLE (a b : Demand) : Prop := a.demand_time ≤ b.demand_time

instance : DecidableRel demandLE := fun a b => Int.decLe a.demand_time b.demand_time

instance : IsTotal Demand demandLE := ⟨fun a b => Int.le_total a.demand_time b.demand_time⟩

instance : IsTrans Demand demandLE := ⟨fun _ _ _ h1 h2 => le_trans h1 h2⟩

/-- Descending order on states by `state_time`, the key of
`order_by(State.state_time.desc())`. -/
def stateGE (a b : State) : Prop := b.state_time ≤ a.state_time

instance : DecidableRel stateGE := fun a b => Int.decLe b.state_time a.state_time

instance : IsTotal State stateGE := ⟨fun a b => (Int.le_total b.state_time a.state_time)⟩

instance : IsTrans State stateGE := ⟨fun _ _ _ h1 h2 => le_trans h2 h1⟩

/-- The filter of the resolver query (main.py lines 166-170):
`State.state_time <= demand.demand_time`, `State.vacant == True`,
`State.mooving == False`. -/
def isQualifying (d : Demand) (s : State) : Bool :=
  decide (s.state_time ≤ d.demand_time) && s.vacant && !s.mooving

/-- The per-demand query of `get_dataset` (main.py lines 166-170):
filter the `states` table, order by `state_time` descending, take the
first row if any. -/
def restingState (states : List State) (d : Demand) : Option State :=
  ((states.filter (isQualifying d)).insertionSort stateGE).head?

/-- The record dict built at main.py lines 172-177. -/
def mkRecord (d : Demand) (s : State) : AssocRecord :=
  ⟨s.current_floor, s.state_time, d.demand_floor, d.demand_time⟩

/-- Handler `get_dataset` (GET /dataset, main.py lines 148-179): demands
ordered ascending by `demand_time`; for each, the most recent qualifying
resting state, if any, yields one record. -/
def get_dataset (db : Store) : List AssocRecord :=
  (db.demands.insertionSort demandLE).filterMap
    (fun d => (restingState db.states d).map (mkRecord d))

/-- GET /dataset as a store transition: the handler only issues SELECT
queries (no add or commit appears at main.py lines 148-179), so the store
it leaves behind is the store it read. -/
def get_dataset_op (db : Store) : List AssocRecord × Store :=
  (get_dataset db, db)

/-- A tagged event of the unified chronological stream, the shape the
repository's own test `test_get_dataset` reads from GET /dataset
(`event_type_is_resting`, floor, `time`). -/
structure TaggedEvent where
  is_resting : Bool
  floor : Int
  time : Int
  deriving DecidableEq

/-- Ascending order on tagged events by `time`. -/
def taggedLE (a b : TaggedEvent) : Prop := a.time ≤ b.time

instance : DecidableRel taggedLE := fun a b => Int.decLe a.time b.time

instance : IsTotal TaggedEvent taggedLE := ⟨fun a b => Int.le_total a.time b.time⟩

instance : IsTrans TaggedEvent taggedLE := ⟨fun _ _ _ h1 h2 => le_trans h1 h2⟩

/-- Modelled from the spec: the Event Merger of section 4.1, which is
absent from `src/` (no merge function exists in main.py; only the test
`test_get_dataset` expects its output shape from GET /dataset).  It keeps
the resting states (vacant and not moving), passes all demands through,
tags each entry, and sorts the combined sequence ascending by time. -/
def merge (states : List State) (demands : List Demand) : List TaggedEvent :=
  (((states.filter (fun s => s.vacant && !s.mooving)).map
      (fun s => (⟨true, s.current_floor, s.state_time⟩ : TaggedEvent))) ++
    demands.map (fun d => (⟨false, d.demand_floor, d.demand_time⟩ : TaggedEvent))).insertionSort taggedLE

/-- Does an association record carry the same demand key (time and floor)
as the demand `d`? -/
def sameDemandKey (d : Demand) (r : AssocRecord) : Bool :=
  decide (r.demand_time = d.demand_time ∧ r.demand_floor = d.demand_floor)

/-- Do two demands carry the same key (time and floor)? -/
def sameKeyDemand (d e : Demand) : Bool :=
  decide (e.demand_time = d.demand_time ∧ e.demand_floor = d.demand_floor)

/-- The store after the spec's end-to-end example writes (T embedded as
600, so T-10min is 0 and T-2min is 480): a resting state at floor 2, a
moving occupied state at floor 5, one demand at floor 4. -/
def exampleStore : Store :=
  ⟨[⟨1, 2, 0, true, false⟩, ⟨2, 5, 480, false, true⟩], [⟨1, 4, 600⟩], 3, 2⟩

/-- The store after the writes of the repository's own `test_get_dataset`:
one resting state at floor 2 ten minutes before one demand at floor 4. -/
def testStore : Store :=
  ⟨[⟨1, 2, 0, true, false⟩], [⟨1, 4, 600⟩], 2, 2⟩

/-- A fresh, empty database. -/
def emptyStore : Store := ⟨[], [], 1, 1⟩

/-- A store with two qualifying resting states for its single demand. -/
def twoRestingStore : Store :=
  ⟨[⟨1, 10, 1, true, false⟩, ⟨2, 20, 2, true, false⟩], [⟨1, 7, 3⟩], 3, 2⟩

/-- A store whose first demand precedes every resting snapshot while the
second demand has a qualifying one. -/
def skipStore : Store :=
  ⟨[⟨1, 2, 5, true, false⟩], [⟨1, 4, 3⟩, ⟨2, 6, 7⟩], 2, 3⟩

end Elevators

namespace Elevators

theorem length_filterMap_eq_countP {α β : Type} (f : α → Option β) (l : List α) :
    (l.filterMap f).length = l.countP (fun a => (f a).isSome) := by
  induction l with
  | nil => rfl
  | cons a t ih =>
    cases h : f a <;>
      simp [List.filterMap_cons, List.countP_cons, h, ih]

theorem countP_filterMap_getD {α β : Type} (f : α → Option β) (p : β → Bool) (l : List α) :
    (l.filterMap f).countP p = l.countP (fun a => ((f a).map p).getD false) := by
  induction l with
  | nil => rfl
  | cons a t ih =>
    cases h : f a <;>
      simp [List.filterMap_cons, List.countP_cons, h, ih]

theorem restingState_mem {states : List State} {d : Demand} {b : State}
    (h : restingState states d = some b) :
    b ∈ states ∧ isQualifying d b = true := by
  unfold restingState at h
  cases hls : (states.filter (isQualifying d)).insertionSort stateGE with
  | nil => rw [hls] at h; cases h
  | cons x t =>
    rw [hls] at h
    have hxb : x = b := by simpa using h
    subst hxb
    have hx : x ∈ states.filter (isQualifying d) :=
      (List.perm_insertionSort stateGE (states.filter (isQualifying d))).mem_iff.mp
        (by rw [hls]; exact List.mem_cons_self x t)
    exact List.mem_filter.mp hx

theorem restingState_max {states : List State} {d : Demand} {b : State}
    (h : restingState states d = some b) :
    ∀ s ∈ states, isQualifying d s = true → s.state_time ≤ b.state_time := by
  intro s hs hq
  unfold restingState at h
  cases hls : (states.filter (isQualifying d)).insertionSort stateGE with
  | nil => rw [hls] at h; cases h
  | cons x t =>
    rw [hls] at h
    have hxb : x = b := by simpa using h
    subst hxb
    have hsort : List.Sorted stateGE
        ((states.filter (isQualifying d)).insertionSort stateGE) :=
      List.sorted_insertionSort stateGE _
    rw [hls, List.sorted_cons] at hsort
    have hsl : s ∈ (states.filter (isQualifying d)).insertionSort stateGE :=
      (List.perm_insertionSort stateGE _).mem_iff.mpr (List.mem_filter.mpr ⟨hs, hq⟩)
    rw [hls] at hsl
    rcases List.mem_cons.mp hsl with heq | hmem
    · rw [heq]
    · exact hsort.1 s hmem

theorem restingState_isSome (states : List State) (d : Demand) :
    (restingState states d).isSome = true ↔ ∃ s ∈ states, isQualifying d s = true := by
  unfold restingState
  cases hls : (states.filter (isQualifying d)).insertionSort stateGE with
  | nil =>
    simp only [List.head?_nil, Option.isSome_none, Bool.false_eq_true, false_iff]
    rintro ⟨s, hs, hq⟩
    have hmem : s ∈ (states.filter (isQualifying d)).insertionSort stateGE :=
      (List.perm_insertionSort stateGE _).mem_iff.mpr (List.mem_filter.mpr ⟨hs, hq⟩)
    rw [hls] at hmem
    cases hmem
  | cons x t =>
    simp only [List.head?_cons, Option.isSome_some, true_iff]
    have hx : x ∈ states.filter (isQualifying d) :=
      (List.perm_insertionSort stateGE _).mem_iff.mp
        (by rw [hls]; exact List.mem_cons_self x t)
    rcases List.mem_filter.mp hx with ⟨hxs, hxq⟩
    exact ⟨x, hxs, hxq⟩

theorem restingState_time_congr (states : List State) {d e : Demand}
    (h : e.demand_time = d.demand_time) :
    restingState states e = restingState states d := by
  unfold restingState
  have hq : isQualifying e = isQualifying d := by
    funext s
    simp [isQualifying, h]
  rw [hq]

theorem mkRecord_mem_get_dataset {db : Store} {d : Demand} {b : State}
    (hd : d ∈ db.demands) (hb : restingState db.states d = some b) :
    mkRecord d b ∈ get_dataset db := by
  unfold get_dataset
  rw [List.mem_filterMap]
  refine ⟨d, (List.perm_insertionSort demandLE db.demands).mem_iff.mpr hd, ?_⟩
  rw [hb]
  rfl

/-- C7: on the spec's end-to-end example (T embedded as 600, so T-10min is
0 and T-2min is 480), GET /dataset returns exactly one record pairing the
demand at floor 4 with the resting state at floor 2 ten minutes earlier;
the moving state at T-2min is excluded. -/
theorem C7_end_to_end :
    get_dataset exampleStore = [⟨2, 0, 4, 600⟩] := by decide

/-- C2: every record returned by GET /dataset has its resting time at or
before its demand time and was built from a stored snapshot that was
vacant, not moving, and of maximal state time among all stored snapshots
that are vacant, not moving and at or before the demand time; hence a
snapshot that is in the future of the demand, occupied, or moving is
never the selected one. -/
theorem C2_qualifying_invariant (db : Store) (r : AssocRecord)
    (hr : r ∈ get_dataset db) :
    r.resting_time ≤ r.demand_time ∧
    ∃ s ∈ db.states, s.vacant = true ∧ s.mooving = false ∧
      s.state_time = r.resting_time ∧ s.current_floor = r.resting_floor ∧
      ∀ t ∈ db.states, t.state_time ≤ r.demand_time → t.vacant = true →
        t.mooving = false → t.state_time ≤ s.state_time := by
  unfold get_dataset at hr
  rcases List.mem_filterMap.mp hr with ⟨d, _, hfd⟩
  cases hres : restingState db.states d with
  | none => rw [hres] at hfd; cases hfd
  | some b =>
    rw [hres] at hfd
    have hrb : r = mkRecord d b := by
      have : some (mkRecord d b) = some r := hfd
      exact (Option.some.inj this).symm
    subst hrb
    rcases restingState_mem hres with ⟨hbs, hbq⟩
    have hq3 := hbq
    simp only [isQualifying, Bool.and_eq_true, decide_eq_true_eq,
      Bool.not_eq_true'] at hq3
    refine ⟨hq3.1.1, b, hbs, hq3.1.2, hq3.2, rfl, rfl, ?_⟩
    intro t ht h1 h2 h3
    refine restingState_max hres t ht ?_
    simp only [isQualifying, Bool.and_eq_true, decide_eq_true_eq,
      Bool.not_eq_true']
    exact ⟨⟨h1, h2⟩, h3⟩

/-- C9: GET /dataset emits at most one record per stored demand, so its
length never exceeds the number of stored demands, with equality exactly
when every stored demand has a qualifying prior resting snapshot. -/
theorem C9_record_count (db : Store) :
    (get_dataset db).length ≤ db.demands.length ∧
    ((get_dataset db).length = db.demands.length ↔
      ∀ d ∈ db.demands, ∃ s ∈ db.states, isQualifying d s = true) := by
  have hlen : (get_dataset db).length
      = db.demands.countP (fun d => (restingState db.states d).isSome) := by
    unfold get_dataset
    rw [length_filterMap_eq_countP]
    rw [(List.perm_insertionSort demandLE db.demands).countP_eq]
    exact List.countP_congr (fun d _ => by simp [Option.isSome_map'])
  constructor
  · rw [hlen]
    exact List.countP_le_length _
  · rw [hlen, List.countP_eq_length]
    constructor
    · intro h d hd
      exact (restingState_isSome db.states d).mp (h d hd)
    · intro h d hd
      exact (restingState_isSome db.states d).mpr (h d hd)

/-- C10: the POST /demand handler appends exactly one row to the demands
table and leaves the states table unchanged; despite its docstring, it
creates no state. -/
theorem C10_create_demand_frame (b : DemandBase) (db : Store) :
    (create_demand b db).2.states = db.states ∧
    (create_demand b db).2.demands
      = db.demands ++ [⟨db.next_demand_id, b.demand_floor, b.demand_time⟩] ∧
    (create_demand b db).2.demands.length = db.demands.length + 1 := by
  refine ⟨rfl, rfl, ?_⟩
  simp [create_demand]

/-- C8: GET /dataset leaves the store unchanged, a second call with no
intervening writes returns the same output, and the output is a function
of the stored states and demands alone (the autoincrement counters do not
influence it). -/
theorem C8_idempotent_pure (db : Store) :
    (get_dataset_op db).2 = db ∧
    (get_dataset_op ((get_dataset_op db).2)).1 = (get_dataset_op db).1 ∧
    ∀ db2 : Store, db2.states = db.states → db2.demands = db.demands →
      (get_dataset_op db2).1 = (get_dataset_op db).1 := by
  refine ⟨rfl, rfl, ?_⟩
  intro db2 h1 h2
  show get_dataset db2 = get_dataset db
  simp only [get_dataset, restingState, h1, h2]

/-- Witness for C8: concrete stores sharing content but with different
autoincrement counters give the same dataset. -/
theorem C8_witness :
    (⟨exampleStore.states, exampleStore.demands, 9, 9⟩ : Store).states
        = exampleStore.states ∧
    (⟨exampleStore.states, exampleStore.demands, 9, 9⟩ : Store).demands
        = exampleStore.demands ∧
    (get_dataset_op ⟨exampleStore.states, exampleStore.demands, 9, 9⟩).1
        = (get_dataset_op exampleStore).1 :=
  ⟨rfl, rfl,
    (C8_idempotent_pure exampleStore).2.2
      ⟨exampleStore.states, exampleStore.demands, 9, 9⟩ rfl rfl⟩

/-- Witness for C9: the count bound and its equality case evaluated on
the end-to-end example store. -/
theorem C9_witness :
    (get_dataset exampleStore).length ≤ exampleStore.demands.length ∧
    ((get_dataset exampleStore).length = exampleStore.demands.length ↔
      ∀ d ∈ exampleStore.demands, ∃ s ∈ exampleStore.states,
        isQualifying d s = true) :=
  C9_record_count exampleStore

/-- C1: a demand with at least one qualifying resting snapshot (and a
unique demand key in the store) gets exactly one record in GET /dataset,
and that record's resting state is the qualifying snapshot of maximum
state time; in particular a strictly older qualifying snapshot is never
the one paired. -/
theorem C1_most_recent (db : Store) (d : Demand) (hd : d ∈ db.demands)
    (huniq : (db.demands.filter (sameKeyDemand d)).length = 1)
    (s : State) (hs : s ∈ db.states) (hq : isQualifying d s = true) :
    ∃ best, restingState db.states d = some best ∧ best ∈ db.states ∧
      isQualifying d best = true ∧
      (∀ t ∈ db.states, isQualifying d t = true → t.state_time ≤ best.state_time) ∧
      (get_dataset db).filter (sameDemandKey d) = [mkRecord d best] := by
  have hsome : (restingState db.states d).isSome = true :=
    (restingState_isSome db.states d).mpr ⟨s, hs, hq⟩
  obtain ⟨best, hbest⟩ := Option.isSome_iff_exists.mp hsome
  rcases restingState_mem hbest with ⟨hbs, hbq⟩
  refine ⟨best, hbest, hbs, hbq, restingState_max hbest, ?_⟩
  have hcount : (get_dataset db).countP (sameDemandKey d)
      = db.demands.countP (sameKeyDemand d) := by
    unfold get_dataset
    rw [countP_filterMap_getD]
    rw [(List.perm_insertionSort demandLE db.demands).countP_eq]
    refine List.countP_congr ?_
    intro e he
    constructor
    · intro hp
      cases hre : restingState db.states e with
      | none => rw [hre] at hp; simp at hp
      | some b =>
        rw [hre] at hp
        simp only [Option.map_some', Option.getD_some] at hp
        simpa [sameDemandKey, sameKeyDemand, mkRecord] using hp
    · intro hk
      have htime : e.demand_time = d.demand_time := (of_decide_eq_true hk).1
      have hre : restingState db.states e = some best := by
        rw [restingState_time_congr db.states htime, hbest]
      rw [hre]
      simp only [Option.map_some', Option.getD_some]
      simpa [sameDemandKey, sameKeyDemand, mkRecord] using hk
  have h1 : ((get_dataset db).filter (sameDemandKey d)).length = 1 := by
    rw [← List.countP_eq_length_filter, hcount,
      List.countP_eq_length_filter, huniq]
  obtain ⟨x, hx⟩ := List.length_eq_one.mp h1
  have hmem : mkRecord d best ∈ (get_dataset db).filter (sameDemandKey d) := by
    rw [List.mem_filter]
    refine ⟨mkRecord_mem_get_dataset hd hbest, ?_⟩
    simp [sameDemandKey, mkRecord]
  rw [hx] at hmem
  rw [hx, List.mem_singleton.mp hmem]

/-- Witness for C1: on a store with two qualifying resting snapshots at
times 1 and 2 and one demand at time 3, the output pairs the demand with
the later snapshot. -/
theorem C1_witness :
    (⟨1, 7, 3⟩ : Demand) ∈ twoRestingStore.demands ∧
    (twoRestingStore.demands.filter (sameKeyDemand ⟨1, 7, 3⟩)).length = 1 ∧
    (⟨1, 10, 1, true, false⟩ : State) ∈ twoRestingStore.states ∧
    isQualifying ⟨1, 7, 3⟩ ⟨1, 10, 1, true, false⟩ = true ∧
    (∃ best, restingState twoRestingStore.states ⟨1, 7, 3⟩ = some best ∧
      best ∈ twoRestingStore.states ∧
      isQualifying ⟨1, 7, 3⟩ best = true ∧
      (∀ t ∈ twoRestingStore.states, isQualifying ⟨1, 7, 3⟩ t = true →
        t.state_time ≤ best.state_time) ∧
      (get_dataset twoRestingStore).filter (sameDemandKey ⟨1, 7, 3⟩)
        = [mkRecord ⟨1, 7, 3⟩ best]) :=
  ⟨by decide, by decide, by decide, by decide,
    C1_most_recent twoRestingStore ⟨1, 7, 3⟩ (by decide) (by decide)
      ⟨1, 10, 1, true, false⟩ (by decide) (by decide)⟩

/-- C5: GET /dataset output is ascending in demand time, has one record
per stored demand with a qualifying prior resting snapshot, and up to
order does not depend on the insertion order of the demands. -/
theorem C5_sorted_output (db : Store) :
    List.Pairwise (fun r1 r2 : AssocRecord => r1.demand_time ≤ r2.demand_time)
      (get_dataset db) ∧
    (get_dataset db).length
      = db.demands.countP (fun d => (restingState db.states d).isSome) ∧
    ∀ demands2 : List Demand, demands2.Perm db.demands →
      (get_dataset ⟨db.states, demands2, db.next_state_id, db.next_demand_id⟩).Perm
        (get_dataset db) := by
  refine ⟨?_, ?_, ?_⟩
  · unfold get_dataset
    rw [List.pairwise_filterMap]
    have hs : List.Sorted demandLE (db.demands.insertionSort demandLE) :=
      List.sorted_insertionSort demandLE db.demands
    refine List.Pairwise.imp ?_ hs
    intro a b hab
    intro x hx y hy
    cases hra : restingState db.states a with
    | none => rw [hra] at hx; cases hx
    | some c =>
      rw [hra] at hx
      cases hrb : restingState db.states b with
      | none => rw [hrb] at hy; cases hy
      | some c2 =>
        rw [hrb] at hy
        have hxe : mkRecord a c = x := by simpa using hx
        have hye : mkRecord b c2 = y := by simpa using hy
        rw [← hxe, ← hye]
        exact hab
  · unfold get_dataset
    rw [length_filterMap_eq_countP]
    rw [(List.perm_insertionSort demandLE db.demands).countP_eq]
    exact List.countP_congr (fun d _ => by simp [Option.isSome_map'])
  · intro demands2 hperm
    have h1 : (demands2.insertionSort demandLE).Perm
        (db.demands.insertionSort demandLE) :=
      ((List.perm_insertionSort demandLE demands2).trans hperm).trans
        (List.perm_insertionSort demandLE db.demands).symm
    exact h1.filterMap _

/-- Witness for C5: permuting the two demands of a concrete store leaves
the dataset the same up to order. -/
theorem C5_witness :
    ([⟨2, 6, 7⟩, ⟨1, 4, 3⟩] : List Demand).Perm skipStore.demands ∧
    (get_dataset ⟨skipStore.states, [⟨2, 6, 7⟩, ⟨1, 4, 3⟩],
        skipStore.next_state_id, skipStore.next_demand_id⟩).Perm
      (get_dataset skipStore) :=
  ⟨by decide,
    (C5_sorted_output skipStore).2.2 [⟨2, 6, 7⟩, ⟨1, 4, 3⟩] (by decide)⟩

/-- C6: a demand none of whose stored snapshots qualify (at or before its
time, vacant, not moving) contributes no record to GET /dataset, and this
is not an error: every demand that does have a qualifying snapshot still
contributes its record. -/
theorem C6_no_record_for_unmatched (db : Store) (d : Demand)
    (_hd : d ∈ db.demands)
    (hnone : ∀ s ∈ db.states, isQualifying d s = false) :
    restingState db.states d = none ∧
    (∀ r ∈ get_dataset db, r.demand_time ≠ d.demand_time) ∧
    ∀ e ∈ db.demands, ∀ b, restingState db.states e = some b →
      mkRecord e b ∈ get_dataset db := by
  have hres : restingState db.states d = none := by
    unfold restingState
    have hf : db.states.filter (isQualifying d) = [] :=
      List.filter_eq_nil_iff.mpr (fun s hs => by simp [hnone s hs])
    rw [hf]
    rfl
  refine ⟨hres, ?_, ?_⟩
  · intro r hr heq
    unfold get_dataset at hr
    rcases List.mem_filterMap.mp hr with ⟨e, _, hfe⟩
    cases hre : restingState db.states e with
    | none => rw [hre] at hfe; cases hfe
    | some b =>
      rw [hre] at hfe
      have hrec : r = mkRecord e b := (Option.some.inj hfe).symm
      have htime : e.demand_time = d.demand_time := by
        rw [← heq, hrec]
        rfl
      rw [restingState_time_congr db.states htime, hres] at hre
      cases hre
  · intro e he b hb
    exact mkRecord_mem_get_dataset he hb

/-- Witness for C6: the demand at time 3 of the concrete store precedes
its only snapshot, contributes nothing, and the demand at time 7 still
contributes its record. -/
theorem C6_witness :
    (⟨1, 4, 3⟩ : Demand) ∈ skipStore.demands ∧
    (∀ s ∈ skipStore.states, isQualifying ⟨1, 4, 3⟩ s = false) ∧
    (restingState skipStore.states ⟨1, 4, 3⟩ = none ∧
      (∀ r ∈ get_dataset skipStore,
        r.demand_time ≠ (⟨1, 4, 3⟩ : Demand).demand_time) ∧
      ∀ e ∈ skipStore.demands, ∀ b, restingState skipStore.states e = some b →
        mkRecord e b ∈ get_dataset skipStore) :=
  ⟨by decide, by decide,
    C6_no_record_for_unmatched skipStore ⟨1, 4, 3⟩ (by decide) (by decide)⟩

/-- C3: divergence between GET /dataset and the tagged-event stream that
the specification and the repository's own test read from it: on the
test's store the handler returns one paired association record, while
the Event Merger (modelled from the spec, absent from main.py) yields the
two time-ordered tagged events the test expects under the keys
`event_type_is_resting` and `time`. -/
theorem C3_divergence :
    get_dataset testStore = [⟨2, 0, 4, 600⟩] ∧
    merge testStore.states testStore.demands
      = [⟨true, 2, 0⟩, ⟨false, 4, 600⟩] := by decide

/-- Counterexample for C4: a POST /state body without `state_time` and a
POST /demand body without `demand_time` are rejected with a validation
error, not stored with a default of now. -/
theorem C4_counterexample :
    postState ⟨some 1, none, some true, some false⟩ emptyStore
        = Except.error "422 Unprocessable Entity: field required" ∧
    postDemand ⟨some 3, none⟩ emptyStore
        = Except.error "422 Unprocessable Entity: field required" :=
  ⟨rfl, rfl⟩

/-- C4 amended: the pydantic schemas declare the timestamps as required,
so any request body with the timestamp unspecified is rejected by both
POST endpoints before anything is stored; the utcnow default on the ORM
columns is unreachable through them. -/
theorem C4_timestamp_required (r : StateReqBody) (q : DemandReqBody)
    (db : Store) (h1 : r.state_time = none) (h2 : q.demand_time = none) :
    postState r db = Except.error "422 Unprocessable Entity: field required" ∧
    postDemand q db = Except.error "422 Unprocessable Entity: field required" := by
  obtain ⟨cf, st, v, m⟩ := r
  obtain ⟨df, dt⟩ := q
  cases st with
  | some t => simp at h1
  | none =>
    cases dt with
    | some t => simp at h2
    | none =>
      constructor
      · cases cf <;> cases v <;> cases m <;> rfl
      · cases df <;> rfl

/-- Witness for C4 amended: concrete timestampless bodies are rejected. -/
theorem C4_witness :
    (⟨some 9, none, some false, some true⟩ : StateReqBody).state_time = none ∧
    (⟨some 5, none⟩ : DemandReqBody).demand_time = none ∧
    (postState ⟨some 9, none, some false, some true⟩ emptyStore
        = Except.error "422 Unprocessable Entity: field required" ∧
      postDemand ⟨some 5, none⟩ emptyStore
        = Except.error "422 Unprocessable Entity: field required") :=
  ⟨rfl, rfl,
    C4_timestamp_required ⟨some 9, none, some false, some true⟩ ⟨some 5, none⟩
      emptyStore rfl rfl⟩

/-- Witness for C2: the invariant instantiated on the record returned for
the end-to-end example store. -/
theorem C2_witness :
    (⟨2, 0, 4, 600⟩ : AssocRecord) ∈ get_dataset exampleStore ∧
    ((⟨2, 0, 4, 600⟩ : AssocRecord).resting_time
        ≤ (⟨2, 0, 4, 600⟩ : AssocRecord).demand_time ∧
      ∃ s ∈ exampleStore.states, s.vacant = true ∧ s.mooving = false ∧
        s.state_time = (⟨2, 0, 4, 600⟩ : AssocRecord).resting_time ∧
        s.current_floor = (⟨2, 0, 4, 600⟩ : AssocRecord).resting_floor ∧
        ∀ t ∈ exampleStore.states,
          t.state_time ≤ (⟨2, 0, 4, 600⟩ : AssocRecord).demand_time →
          t.vacant = true → t.mooving = false →
          t.state_time ≤ s.state_time) :=
  ⟨by decide, C2_qualifying_invariant exampleStore ⟨2, 0, 4, 600⟩ (by decide)⟩

end Elevators
